import Mathlib

/-!
Verification of the client configuration deployment scripts
(`client_config_maker.py`, `deploy_master.py`, `insert_download_rules.py`,
`insert_enrichment_rules.py`).

The scripts manipulate JSON documents (Python dicts/lists loaded via
`json.load`) and write them to remote stores.  We embed the JSON data model
as an inductive type and Python dicts as association lists in insertion
order (Python dicts preserve insertion order; `d[k] = v` overwrites in
place when `k` is present and appends otherwise).  Randomness
(`secrets.token_hex(8)`, `uuid.uuid4()`) is injected as an explicit
generator/supply, and remote-store outcomes are injected as oracles, so
every function is a pure, executable translation of the corresponding
Python function.  Inputs on which Python would raise a `TypeError` or
`AttributeError` (a non-dict where the script indexes a dict, a truthy
non-string in a string position) are outside the embedding's domain and
are passed through unchanged; no theorem below depends on such inputs.
-/

namespace ClientConfig

/-- JSON values as produced by Python's `json.load`.  Numbers are modelled
as integers (the rule files in this repository use integral numbers
only). -/
inductive Json where
  | null : Json
  | bool (b : Bool) : Json
  | num (n : Int) : Json
  | str (s : String) : Json
  | arr (xs : List Json) : Json
  | obj (kvs : List (String × Json)) : Json

/-- Lookup in an association list (Python `d[k]` / `k in d`), returning the
first binding. -/
def alookup {α : Type} (l : List (String × α)) (k : String) : Option α :=
  match l with
  | [] => none
  | (k', v) :: rest => if k' = k then some v else alookup rest k

/-- Python `d[k] = v`: overwrite the first binding in place, append when the
key is absent. -/
def setKey {α : Type} (l : List (String × α)) (k : String) (v : α) : List (String × α) :=
  match l with
  | [] => [(k, v)]
  | (k', v') :: rest => if k' = k then (k, v) :: rest else (k', v') :: setKey rest k v

/-- Python `del d[k]` (dicts have no duplicate keys, so removing every
binding of `k` agrees with removing the single one). -/
def delKey {α : Type} (l : List (String × α)) (k : String) : List (String × α) :=
  l.filter (fun kv => kv.1 ≠ k)

/-- Python truthiness of a JSON value. -/
def truthy : Json → Bool
  | .null => false
  | .bool b => b
  | .num n => n ≠ 0
  | .str s => s ≠ ""
  | .arr xs => !xs.isEmpty
  | .obj kvs => !kvs.isEmpty

/-- Fields of a JSON object (empty for non-objects, which the scripts never
index successfully). -/
def objFields : Json → List (String × Json)
  | .obj kvs => kvs
  | _ => []

/-- Whether a JSON value is an object (Python `isinstance(x, dict)`). -/
def isObj : Json → Bool
  | .obj _ => true
  | _ => false

/-- Whether a JSON value is a string (Python `isinstance(x, str)`). -/
def isStr : Json → Bool
  | .str _ => true
  | _ => false

/-- Python `d.get(k)` on a JSON object; `none` for non-objects. -/
def pyGet (j : Json) (k : String) : Option Json :=
  match j with
  | .obj kvs => alookup kvs k
  | _ => none

/-- Python `str(`scalar`)`.  Containers are outside the embedding's domain
(no claim evaluates `str` on a list or dict). -/
def pyStr : Json → String
  | .str s => s
  | .num n => toString n
  | .bool true => "True"
  | .bool false => "False"
  | .null => "None"
  | .arr _ => ""
  | .obj _ => ""

/-- Python `s.startswith(p)` via the underlying character lists. -/
def strStartsWith (s p : String) : Bool :=
  p.data.isPrefixOf s.data

/-- Python `l.replace(pat, rep)` on character lists: replace every
non-overlapping occurrence left to right (`pat` nonempty in every use).
The fuel argument makes the recursion structural; every step consumes at
least one character, so fuel equal to the list length (as supplied by
`strReplace`) always suffices and the `0, l` fallback is never reached
from `strReplace`. -/
def listReplaceF (pat rep : List Char) : Nat → List Char → List Char
  | _, [] => []
  | 0, l => l
  | fuel + 1, c :: cs =>
    if pat ≠ [] ∧ pat.isPrefixOf (c :: cs) then
      rep ++ listReplaceF pat rep fuel ((c :: cs).drop pat.length)
    else
      c :: listReplaceF pat rep fuel cs

/-- Python `s.replace(pat, rep)` on strings. -/
def strReplace (s pat rep : String) : String :=
  ⟨listReplaceF pat.data rep.data s.data.length s.data⟩

/-- `generate_config_id` from `client_config_maker.py`: the random hex is
injected by the caller. -/
def generate_config_id (client_tag label random_hex : String) : String :=
  client_tag ++ "-" ++ label ++ "-" ++ random_hex

/-- Parameter-store path of a client configuration blob. -/
def clientConfigPath (client_id : String) : String :=
  "/spec/enrichment/clients/" ++ client_id ++ "/config"

/-- Parameter-store path of an environment configuration blob. -/
def envConfigPath (client_id env_id : String) : String :=
  "/spec/enrichment/clients/" ++ client_id ++ "/envs/" ++ env_id ++ "/config"

/-- Parameter-store path of one extracted secret. -/
def secretPath (client_id env_id name : String) : String :=
  "/spec/enrichment/clients/" ++ client_id ++ "/envs/" ++ env_id ++ "/secrets/" ++ name

/-- Secret-reference rewriting applied to one designated field of one
connection (`update_config_ids`, the `for field in ["password",
"client_secret"]` body): when the field holds a truthy string starting
with `secret.`, replace it by the parameter-store path of the name
obtained by `value.replace("secret.", "")`. -/
def rewriteField (client_id env_id field : String) (conn : List (String × Json)) :
    List (String × Json) :=
  match alookup conn field with
  | some (.str s) =>
    if s ≠ "" ∧ strStartsWith s "secret." then
      setKey conn field (.str (secretPath client_id env_id (strReplace s "secret." "")))
    else conn
  | _ => conn

/-- Fields of one connection after the connection pass: assign the
generated identifier, then rewrite the `password` and `client_secret`
fields. -/
def connFields (client_id env_id new_id : String) (cv : Json) : List (String × Json) :=
  rewriteField client_id env_id "client_secret"
    (rewriteField client_id env_id "password"
      (setKey (objFields cv) "id" (.str new_id)))

/-- Connection pass of `update_config_ids`: assign each connection a fresh
`{tag}-con-{hex}` identifier, rewrite its two secret-bearing fields, key
the new connections dict by the generated identifiers, and record the
symbolic-key → identifier map.  `gen i` is the `i`-th random hex drawn in
the current run; the returned `Nat` is the next unused index. -/
def updateConnections (client_tag client_id env_id : String) (gen : Nat → String) :
    Nat → List (String × Json) →
      List (String × Json) × List (String × String) × Nat
  | ctr, [] => ([], [], ctr)
  | ctr, (ck, cv) :: rest =>
    let new_id := generate_config_id client_tag "con" (gen ctr)
    let cf := connFields client_id env_id new_id cv
    let r := updateConnections client_tag client_id env_id gen (ctr + 1) rest
    ((new_id, .obj cf) :: r.1, (ck, new_id) :: r.2.1, r.2.2)

/-- Substitution of one pipeline connection reference: a value that is a
symbolic key present in the connection map is replaced by the generated
connection identifier; anything else passes through unchanged. -/
def rewriteConnRef (cmap : List (String × String)) (v : Json) : Json :=
  match v with
  | .str s =>
    match alookup cmap s with
    | some id => .str id
    | none => .str s
  | v => v

/-- Fields of one pipeline after the pipeline pass: assign the generated
identifier, then rewrite every entry of a nonempty `connections` sub-map
through the connection map built in the first pass. -/
def updatePipelineFields (cmap : List (String × String)) (new_id : String) (pv : Json) :
    List (String × Json) :=
  let pf := setKey (objFields pv) "id" (.str new_id)
  match alookup pf "connections" with
  | some (.obj sub) =>
    if !sub.isEmpty then
      setKey pf "connections" (.obj (sub.map (fun kv => (kv.1, rewriteConnRef cmap kv.2))))
    else pf
  | _ => pf

/-- Pipeline pass of `update_config_ids`: assign each pipeline a fresh
`{tag}-pipe-{hex}` identifier, rewrite its connection references through
the connection map, collect the identifiers in encounter order and the
symbolic-key → identifier map. -/
def updatePipelines (client_tag : String) (cmap : List (String × String)) (gen : Nat → String) :
    Nat → List (String × Json) →
      List (String × Json) × List String × List (String × String) × Nat
  | ctr, [] => ([], [], [], ctr)
  | ctr, (pk, pv) :: rest =>
    let new_id := generate_config_id client_tag "pipe" (gen ctr)
    let pf := updatePipelineFields cmap new_id pv
    let r := updatePipelines client_tag cmap gen (ctr + 1) rest
    ((new_id, .obj pf) :: r.1, new_id :: r.2.1, (pk, new_id) :: r.2.2.1, r.2.2.2)

/-- Result of `update_config_ids`: the rewritten config, the generated
pipeline identifiers in encounter order, and the pipeline symbolic-key →
identifier map. -/
structure UpdateResult where
  config : List (String × Json)
  pipeline_ids : List String
  pipeline_key_map : List (String × String)

/-- Connections step of `update_config_ids` (`if "connections" in config
and config["connections"]`): rewrite the connections dict and build the
symbol table. -/
def connStep (config : List (String × Json)) (client_tag client_id env_id : String)
    (gen : Nat → String) (ctr : Nat) :
    List (String × Json) × List (String × String) × Nat :=
  match alookup config "connections" with
  | some (.obj cs) =>
    if !cs.isEmpty then
      let (newCs, cmap, ctr') := updateConnections client_tag client_id env_id gen ctr cs
      (setKey config "connections" (.obj newCs), cmap, ctr')
    else (config, [], ctr)
  | _ => (config, [], ctr)

/-- Pipelines step of `update_config_ids` (`if "pipelines" in config and
config["pipelines"]`), consuming the connection symbol table built by
`connStep`. -/
def pipeStep (config1 : List (String × Json)) (client_tag : String)
    (cmap : List (String × String)) (gen : Nat → String) (ctr1 : Nat) : UpdateResult × Nat :=
  match alookup config1 "pipelines" with
  | some (.obj ps) =>
    if !ps.isEmpty then
      let (newPs, pids, pmap, ctr2) := updatePipelines client_tag cmap gen ctr1 ps
      (⟨setKey config1 "pipelines" (.obj newPs), pids, pmap⟩, ctr2)
    else (⟨config1, [], []⟩, ctr1)
  | _ => (⟨config1, [], []⟩, ctr1)

/-- `update_config_ids` from `client_config_maker.py`: process the
`connections` dict first (building the connection symbol table), then the
`pipelines` dict; each pass fires only when the key is present and its
dict truthy (nonempty).  Also returns the connection symbol table and the
next random index so callers can be composed. -/
def update_config_ids (config : List (String × Json)) (client_tag client_id env_id : String)
    (gen : Nat → String) (ctr : Nat) :
    UpdateResult × List (String × String) × Nat :=
  let (config1, cmap, ctr1) := connStep config client_tag client_id env_id gen ctr
  let (u, ctr2) := pipeStep config1 client_tag cmap gen ctr1
  (u, cmap, ctr2)

end ClientConfig

namespace ClientConfig

/-- One `put_parameter` call issued to the parameter store: name, value
(the logical payload; config blobs are serialized from `value` via
`json.dumps` and secrets are sent as-is), and whether the parameter is a
`SecureString`. -/
structure WriteOp where
  name : String
  value : Json
  secure : Bool

/-- Outcome of processing one environment inside `create_client_config`
(the body of the `for env_key, env_config in environments_config.items()`
loop).  `tagError` records the `KeyError` raised by `env_config["tag"]`
when the tag is missing, which aborts the whole run via the enclosing
`except`.  `writes` lists the `put_parameter` calls issued for this
environment (empty in dry-run mode); `stored_config` is the environment
blob serialized to the parameter store (live) or to the dry-run file. -/
structure EnvOutcome where
  tagError : Bool
  env_id : String
  pipeline_ids : List String
  pipeline_key_map : List (String × String)
  stored_config : List (String × Json)
  writes : List WriteOp
  ctr : Nat

/-- Body of the per-environment loop of `create_client_config`: generate
the environment id, extract the `secret` mapping before storing, rewrite
nested ids via `update_config_ids`, write the environment blob (on a
failed live write, `continue` — the environment's secrets are skipped),
then write each extracted secret individually as a `SecureString`.  `ok`
is the remote-store oracle, indexed by parameter name. -/
def processEnv (client_tag client_id : String) (gen : Nat → String) (ok : String → Bool)
    (dry_run : Bool) (ctr : Nat) (env_cfg : List (String × Json)) : EnvOutcome :=
  match alookup env_cfg "tag" with
  | some (.str env_tag) =>
    let env_id := generate_config_id client_tag env_tag (gen ctr)
    let env_cfg := setKey env_cfg "id" (.str env_id)
    let env_secrets := alookup env_cfg "secret"
    let env_cfg := match env_secrets with
      | some _ => delKey env_cfg "secret"
      | none => env_cfg
    let ur := update_config_ids env_cfg client_tag client_id env_id gen (ctr + 1)
    let u := ur.1
    let ctr' := ur.2.2
    let envOp : WriteOp := ⟨envConfigPath client_id env_id, .obj u.config, false⟩
    if dry_run then
      ⟨false, env_id, u.pipeline_ids, u.pipeline_key_map, u.config, [], ctr'⟩
    else if ok envOp.name = false then
      ⟨false, env_id, u.pipeline_ids, u.pipeline_key_map, u.config, [envOp], ctr'⟩
    else
      let secretOps : List WriteOp :=
        match env_secrets with
        | some (.obj m) =>
          if !m.isEmpty then m.map (fun kv => ⟨secretPath client_id env_id kv.1, kv.2, true⟩)
          else []
        | _ => []
      ⟨false, env_id, u.pipeline_ids, u.pipeline_key_map, u.config, envOp :: secretOps, ctr'⟩
  | _ => ⟨true, "", [], [], [], [], ctr⟩

/-- Accumulated state of the per-environment loop: whether an exception
aborted the run, the three result maps, the writes issued so far, and the
next random index. -/
structure EnvsOutcome where
  aborted : Bool
  environment_ids : List (String × String)
  pipeline_ids : List (String × List String)
  pipeline_key_maps : List (String × List (String × String))
  writes : List WriteOp
  ctr : Nat

/-- The per-environment loop of `create_client_config` over the entries of
`environments.json`.  An exception (missing environment `tag`) stops the
loop; writes already issued remain issued. -/
def processEnvs (client_tag client_id : String) (gen : Nat → String) (ok : String → Bool)
    (dry_run : Bool) : Nat → List (String × Json) → EnvsOutcome
  | ctr, [] => ⟨false, [], [], [], [], ctr⟩
  | ctr, (ek, ev) :: rest =>
    let o := processEnv client_tag client_id gen ok dry_run ctr (objFields ev)
    if o.tagError then ⟨true, [], [], [], [], o.ctr⟩
    else
      let r := processEnvs client_tag client_id gen ok dry_run o.ctr rest
      if r.aborted then ⟨true, [], [], [], o.writes ++ r.writes, r.ctr⟩
      else
        ⟨false, (ek, o.env_id) :: r.environment_ids, (ek, o.pipeline_ids) :: r.pipeline_ids,
          (ek, o.pipeline_key_map) :: r.pipeline_key_maps, o.writes ++ r.writes, r.ctr⟩

/-- Result dictionary returned by `create_client_config` (the failure
branches leave the id/map fields at their defaults, as the Python error
dict carries only `success` and `error`). -/
structure ClientRunResult where
  success : Bool
  error : Option String
  client_id : String
  client_tag : String
  environment_ids : List (String × String)
  pipeline_ids : List (String × List String)
  pipeline_key_maps : List (String × List (String × String))
  total_environments : Nat

/-- Default (failure) result value. -/
def ClientRunResult.fail (e : String) : ClientRunResult :=
  ⟨false, some e, "", "", [], [], [], 0⟩

/-- `create_client_config` from `client_config_maker.py`, from the point
where both JSON files are loaded (file existence and AWS connectivity are
external-collaborator concerns): check `tag`, generate the client id,
write the client blob (a live failure is fatal), then process each
environment.  Returns the result dict and the `put_parameter` calls
issued. -/
def create_client_config (client_config : List (String × Json))
    (environments_config : List (String × Json)) (gen : Nat → String) (ok : String → Bool)
    (dry_run : Bool) : ClientRunResult × List WriteOp :=
  match alookup client_config "tag" with
  | some (.str client_tag) =>
    let client_id := generate_config_id client_tag "cid" (gen 0)
    let client_config := setKey client_config "id" (.str client_id)
    let clientOp : WriteOp := ⟨clientConfigPath client_id, .obj client_config, false⟩
    if dry_run = false ∧ ok clientOp.name = false then
      (ClientRunResult.fail "Failed to create client configuration parameter", [clientOp])
    else
      let cwrites := if dry_run then [] else [clientOp]
      let r := processEnvs client_tag client_id gen ok dry_run 1 environments_config
      if r.aborted then
        (ClientRunResult.fail "Error during configuration deployment", cwrites ++ r.writes)
      else
        (⟨true, none, client_id, client_tag, r.environment_ids, r.pipeline_ids,
          r.pipeline_key_maps, environments_config.length⟩, cwrites ++ r.writes)
  | _ => (ClientRunResult.fail "'tag' field is missing from client.json", [])

end ClientConfig

namespace ClientConfig

/-- List paired with 0-based positions starting at `n` (the Python
`enumerate` of the processing loops). -/
def enumFrom {α : Type} : Nat → List α → List (Nat × α)
  | _, [] => []
  | n, x :: xs => (n, x) :: enumFrom (n + 1) xs

/-- `generate_rule_id` from `insert_download_rules.py`. -/
def generate_rule_id (guid : String) (rule_num : Nat) : String :=
  guid ++ "#rule_" ++ toString rule_num

/-- `validate_rule_data` from `insert_download_rules.py`: the three
required fields must be present and strings. -/
def validate_rule_data (rule : Json) : Bool :=
  match pyGet rule "description", pyGet rule "type", pyGet rule "values" with
  | some d, some t, some v => isStr d && isStr t && isStr v
  | _, _, _ => false

/-- The pre-write validation loop of `insert_download_rules`: the first
rule that is not a JSON object or fails `validate_rule_data` yields the
error message returned for the whole invocation. -/
def validateAll : Nat → List Json → Option String
  | _, [] => none
  | i, r :: rest =>
    if isObj r = false then some ("Rule " ++ toString (i + 1) ++ " must be a JSON object")
    else if validate_rule_data r = false then
      some ("Rule " ++ toString (i + 1) ++ " validation failed")
    else validateAll (i + 1) rest

/-- `convert_to_dynamodb_item` from `insert_download_rules.py`. -/
def convert_to_dynamodb_item (rule : Json) (rule_id env_id client_id pipeline_id : String) :
    List (String × Json) :=
  [("rule_id", .obj [("S", .str rule_id)]),
   ("env_id", .obj [("S", .str env_id)]),
   ("client_id", .obj [("S", .str client_id)]),
   ("pipeline_id", .obj [("S", .str pipeline_id)]),
   ("description", .obj [("S", (pyGet rule "description").getD (.str ""))]),
   ("type", .obj [("S", (pyGet rule "type").getD (.str ""))]),
   ("values", .obj [("S", (pyGet rule "values").getD (.str ""))])]

/-- Python `item[f]["S"]` for the dry-run readable conversion. -/
def getS (item : List (String × Json)) (f : String) : Json :=
  match alookup item f with
  | some (.obj kvs) => (alookup kvs "S").getD .null
  | _ => .null

/-- The `readable_item` built for dry-run output in
`insert_download_rules`: the seven fields of the DynamoDB item with their
`S` wrappers unwrapped. -/
def readable_item (item : List (String × Json)) : List (String × Json) :=
  [("rule_id", getS item "rule_id"),
   ("env_id", getS item "env_id"),
   ("client_id", getS item "client_id"),
   ("pipeline_id", getS item "pipeline_id"),
   ("description", getS item "description"),
   ("type", getS item "type"),
   ("values", getS item "values")]

/-- Result dictionary of `insert_download_rules`; counts are zero and
`rule_guid` is `none` in the failure branches (the Python failure dict
carries only `success` and `error`). -/
structure DownloadResult where
  success : Bool
  error : Option String
  total_rules : Nat
  successful_inserts : Nat
  failed_inserts : Nat
  rule_guid : Option String

/-- Failure result of `insert_download_rules`. -/
def DownloadResult.fail (e : String) : DownloadResult :=
  ⟨false, some e, 0, 0, 0, none⟩

/-- Empty-success result of `insert_download_rules` (empty file, or the
pipeline filter left no rules): `rule_guid` is `None`. -/
def DownloadResult.empty : DownloadResult :=
  ⟨true, none, 0, 0, 0, none⟩

/-- Python truthiness of the optional `pipeline_key` argument (`if
pipeline_key:`): absent or empty means no filtering. -/
def truthyKey : Option String → Bool
  | some k => k ≠ ""
  | none => false

/-- The pipeline filter of `insert_download_rules`:
`rule.get('pipeline') == pipeline_key`. -/
def pipelineMatches (k : String) (rule : Json) : Bool :=
  match pyGet rule "pipeline" with
  | some (.str s) => s = k
  | _ => false

/-- Rules kept by one `insert_download_rules` invocation: filtered by the
pipeline key only when the key is truthy. -/
def filteredRules (key : Option String) (rules : List Json) : List Json :=
  match key with
  | some k => if k ≠ "" then rules.filter (pipelineMatches k) else rules
  | none => rules

/-- `insert_download_rules` from `insert_download_rules.py`, from the
point where `download_rules.json` is loaded as a JSON array (file
existence and DynamoDB connectivity are external-collaborator concerns).
`guids` is the supply of random batch identifiers (`uuid.uuid4()`), of
which at most one is drawn; `ok i` is the DynamoDB oracle for the `i`-th
`put_item` of this invocation.  Returns the result dict, the DynamoDB
items actually sent to `put_item` (empty in dry-run mode), and the
un-drawn remainder of the guid supply. -/
def insert_download_rules (rules_data : List Json) (pipeline_key : Option String)
    (env_id client_id pipeline_id : String) (guids : List String) (dry_run : Bool)
    (ok : Nat → Bool) : DownloadResult × List (List (String × Json)) × List String :=
  if rules_data.isEmpty then (DownloadResult.empty, [], guids)
  else
    let rules_data := filteredRules pipeline_key rules_data
    if truthyKey pipeline_key ∧ rules_data.isEmpty then (DownloadResult.empty, [], guids)
    else
      match validateAll 0 rules_data with
      | some e => (DownloadResult.fail e, [], guids)
      | none =>
        let rule_guid := guids.headD ""
        let items := (enumFrom 0 rules_data).map (fun p =>
          convert_to_dynamodb_item p.2 (generate_rule_id rule_guid (p.1 + 1))
            env_id client_id pipeline_id)
        if dry_run then
          (⟨true, none, rules_data.length, rules_data.length, 0, some rule_guid⟩, [], guids.tail)
        else
          let successful := ((enumFrom 0 items).filter (fun p => ok p.1)).length
          let failed := ((enumFrom 0 items).filter (fun p => ok p.1 = false)).length
          (⟨true, none, rules_data.length, successful, failed, some rule_guid⟩, items, guids.tail)

end ClientConfig

namespace ClientConfig

/-- Digit run of Python `int(str)` after the optional sign: digits with
single underscores allowed only between digits.  `prevDigit` tracks
whether the previous character was a digit. -/
def digitsCore : Bool → Nat → List Char → Option Nat
  | prevDigit, acc, [] => if prevDigit then some acc else none
  | prevDigit, acc, c :: cs =>
    if c.isDigit then digitsCore true (acc * 10 + (c.toNat - 48)) cs
    else if c = '_' then (if prevDigit then digitsCore false acc cs else none)
    else none

/-- Python `int(s)` on a string: strip surrounding whitespace, optional
sign, then an underscore-grouped digit run. -/
def pyIntOfString (s : String) : Option Int :=
  let l := s.data.dropWhile Char.isWhitespace
  let l := (l.reverse.dropWhile Char.isWhitespace).reverse
  match l with
  | '+' :: r => (digitsCore false 0 r).map Int.ofNat
  | '-' :: r => (digitsCore false 0 r).map (fun n => -(n : Int))
  | r => (digitsCore false 0 r).map Int.ofNat

/-- Python `int(x)` on a JSON value (`TypeError` for null/containers is a
coercion failure, caught as `ValueError`/`Exception` by the caller). -/
def pyInt : Json → Option Int
  | .num n => some n
  | .bool b => some (if b then 1 else 0)
  | .str s => pyIntOfString s
  | _ => none

/-- The `isinstance(v, dict) and key in v` unwrapping of
`_build_dynamo_item` in `insert_enrichment_rules.py`, accepting
Dynamo-typed input. -/
def dynamoUnwrap (key : String) (v : Json) : Json :=
  match v with
  | .obj kvs =>
    match alookup kvs key with
    | some w => w
    | none => .obj kvs
  | v => v

/-- Field access of `_build_dynamo_item`: `raw_item.get(f)` followed by
the typed-input unwrapping; a JSON `null` value is Python `None` and is
treated like an absent field. -/
def enrichField (raw : Json) (f typeKey : String) : Option Json :=
  match pyGet raw f with
  | some v =>
    match dynamoUnwrap typeKey v with
    | .null => none
    | w => some w
  | none => none

/-- `_resolve_env_id` from `insert_enrichment_rules.py`. -/
def _resolve_env_id (raw : Json) (environment_id_map : List (String × String)) : String :=
  let e := pyStr raw
  match alookup environment_id_map e with
  | some v => v
  | none => e

/-- `_coerce_version` from `insert_enrichment_rules.py`: `str(int(v))`,
raising when the value is not coercible to an integer. -/
def _coerce_version (raw : Json) : Except String String :=
  match pyInt raw with
  | some n => .ok (toString n)
  | none => .error ("version '" ++ pyStr raw ++ "' is not a number")

/-- `_resolve_client_id` from `insert_enrichment_rules.py`: `None` or the
empty string falls back to the run's default client id. -/
def _resolve_client_id (raw : Option Json) (default_client_id : Option String) : Option String :=
  match raw with
  | none => default_client_id
  | some (.str "") => default_client_id
  | some v => some (pyStr v)

/-- `_build_dynamo_item` from `insert_enrichment_rules.py`: normalize one
enrichment record, returning the Dynamo-typed item and the readable item
or the first field error.  The readable `version` is `int(str(int(v)))`,
i.e. the coerced integer itself. -/
def _build_dynamo_item (raw : Json) (environment_id_map : List (String × String))
    (default_client_id : Option String) :
    Except String (List (String × Json) × List (String × Json)) := do
  if isObj raw = false then throw "item must be a JSON object"
  let envRaw ←
    match enrichField raw "environment_id" "S" with
    | some v => pure v
    | none => throw "environment_id is required"
  let env_id_value := _resolve_env_id envRaw environment_id_map
  let verRaw ←
    match enrichField raw "version" "N" with
    | some v => pure v
    | none => throw "version is required"
  let version_value ← _coerce_version verRaw
  let version_int : Int := (pyInt verRaw).getD 0
  let client_id_value := _resolve_client_id (enrichField raw "client_id" "S") default_client_id
  let rules_json_value ←
    match enrichField raw "rules_json" "S" with
    | some v => pure v
    | none => throw "rules_json is required"
  let dynamodb_item : List (String × Json) :=
    [("environment_id", .obj [("S", .str env_id_value)]),
     ("version", .obj [("N", .str version_value)]),
     ("rules_json", .obj [("S", .str (pyStr rules_json_value))])]
  let readable_item : List (String × Json) :=
    [("environment_id", .str env_id_value),
     ("version", .num version_int),
     ("rules_json", rules_json_value)]
  match client_id_value with
  | some c =>
    if c ≠ "" then
      pure (dynamodb_item ++ [("client_id", .obj [("S", .str c)])],
        readable_item ++ [("client_id", .str c)])
    else pure (dynamodb_item, readable_item)
  | none => pure (dynamodb_item, readable_item)

/-- The normalization loop of `insert_enrichment_rules`: build every item
before any write; the first failure aborts the whole batch. -/
def buildAll (environment_id_map : List (String × String)) (default_client_id : Option String) :
    List Json → Except String (List (List (String × Json) × List (String × Json)))
  | [] => .ok []
  | r :: rest => do
    let x ← _build_dynamo_item r environment_id_map default_client_id
    let xs ← buildAll environment_id_map default_client_id rest
    pure (x :: xs)

/-- Result dictionary of `insert_enrichment_rules`; counts are zero in the
failure branches (the Python failure dict carries only `success` and
`error`). -/
structure EnrichResult where
  success : Bool
  error : Option String
  total_rules : Nat
  successful_inserts : Nat
  failed_inserts : Nat

/-- `insert_enrichment_rules` from `insert_enrichment_rules.py`, from the
point where `enrichment_rules.json` is loaded as a JSON array: normalize
every record (aborting the whole batch on the first failure, with zero
writes), then write each Dynamo item; the aggregate `success` is true
exactly when no row write failed.  `ok i` is the DynamoDB oracle for the
`i`-th `put_item`; returns the result dict and the items sent to
`put_item` (empty in dry-run mode). -/
def insert_enrichment_rules (rules_data : List Json)
    (environment_id_map : List (String × String)) (client_id : Option String)
    (dry_run : Bool) (ok : Nat → Bool) : EnrichResult × List (List (String × Json)) :=
  match buildAll environment_id_map client_id rules_data with
  | .error e => (⟨false, some e, 0, 0, 0⟩, [])
  | .ok items =>
    if dry_run then
      (⟨true, none, items.length, items.length, 0⟩, [])
    else
      let successful := ((enumFrom 0 items).filter (fun p => ok p.1)).length
      let failed := ((enumFrom 0 items).filter (fun p => ok p.1 = false)).length
      (⟨failed == 0, none, items.length, successful, failed⟩, items.map (·.1))

end ClientConfig

namespace ClientConfig

/-- The per-pipeline loop of `run_download_rules_insertion` in
`deploy_master.py` for one environment: look the pipeline's original
symbolic key up in the reversed key map and run one
`insert_download_rules` invocation per pipeline id.  `inv` numbers the
invocations so each has its own row oracle `okRow inv`; the guid supply is
threaded through. -/
def runPipelines (rules : List Json) (env_id client_id : String)
    (idToKey : List (String × String)) (dry_run : Bool) (okRow : Nat → Nat → Bool) :
    Nat → List String → List String → List DownloadResult × List String × Nat
  | inv, guids, [] => ([], guids, inv)
  | inv, guids, pid :: rest =>
    let key := alookup idToKey pid
    let one := insert_download_rules rules key env_id client_id pid guids dry_run (okRow inv)
    let r := runPipelines rules env_id client_id idToKey dry_run okRow (inv + 1) one.2.2 rest
    (one.1 :: r.1, r.2.1, r.2.2)

/-- The per-environment loop of `run_download_rules_insertion`: an
environment with no pipelines is skipped with a warning; otherwise the
reverse pipeline-id → symbolic-key map is built and every pipeline is
processed. -/
def runEnvsRules (rules : List Json) (client_id : String)
    (pipeline_ids : List (String × List String))
    (pipeline_key_maps : List (String × List (String × String)))
    (dry_run : Bool) (okRow : Nat → Nat → Bool) :
    Nat → List String → List (String × String) → List DownloadResult × List String × Nat
  | inv, guids, [] => ([], guids, inv)
  | inv, guids, (ek, eid) :: rest =>
    let pids := (alookup pipeline_ids ek).getD []
    if pids.isEmpty then
      runEnvsRules rules client_id pipeline_ids pipeline_key_maps dry_run okRow inv guids rest
    else
      let pmap := (alookup pipeline_key_maps ek).getD []
      let idToKey := pmap.map (fun kv => (kv.2, kv.1))
      let r1 := runPipelines rules eid client_id idToKey dry_run okRow inv guids pids
      let r2 := runEnvsRules rules client_id pipeline_ids pipeline_key_maps dry_run okRow r1.2.2 r1.2.1 rest
      (r1.1 ++ r2.1, r2.2.1, r2.2.2)

/-- Observable outcome of one `deploy_master.py` run: the aggregated
sub-results and the process exit status. -/
structure MasterOutcome where
  clientResult : ClientRunResult
  downloadResults : List DownloadResult
  enrichResult : Option EnrichResult
  exitCode : Nat

/-- The `main` orchestration of `deploy_master.py`, after argument
parsing and with the input files loaded: run `create_client_config` (a
failure exits with status 1), then — unless skipped, and exiting with
status 1 when the rule file is absent — one `insert_download_rules`
invocation per pipeline per environment and one `insert_enrichment_rules`
invocation.  Download-rule or enrichment failures only print warnings;
the script then reaches the summary and exits with status 0. -/
def runMaster (client_config : List (String × Json)) (environments_config : List (String × Json))
    (download_rules enrichment_rules : List Json) (gen : Nat → String)
    (okParam : String → Bool) (okRow : Nat → Nat → Bool) (okEnrich : Nat → Bool)
    (guids : List String) (dry_run skipRules skipEnrich rulesFileExists enrichFileExists : Bool) :
    MasterOutcome :=
  let cres := (create_client_config client_config environments_config gen okParam dry_run).1
  if cres.success = false then ⟨cres, [], none, 1⟩
  else if skipRules = false ∧ rulesFileExists = false then ⟨cres, [], none, 1⟩
  else
    let dres :=
      if skipRules then []
      else (runEnvsRules download_rules cres.client_id cres.pipeline_ids cres.pipeline_key_maps
        dry_run okRow 0 guids cres.environment_ids).1
    if skipEnrich = false ∧ enrichFileExists = false then ⟨cres, dres, none, 1⟩
    else
      let eres :=
        if skipEnrich then none
        else some (insert_enrichment_rules enrichment_rules cres.environment_ids
          (some cres.client_id) dry_run okEnrich).1
      ⟨cres, dres, eres, 0⟩

end ClientConfig

namespace ClientConfig

theorem alookup_setKey_self {α : Type} (l : List (String × α)) (k : String) (v : α) :
    alookup (setKey l k v) k = some v := by
  induction l with
  | nil => simp [setKey, alookup]
  | cons kv rest ih =>
    obtain ⟨k', v'⟩ := kv
    by_cases h : k' = k
    · simp [setKey, h, alookup]
    · simp [setKey, h, alookup, ih]

theorem alookup_setKey_ne {α : Type} (l : List (String × α)) (k k' : String) (v : α)
    (h : k' ≠ k) : alookup (setKey l k v) k' = alookup l k' := by
  have h' : k ≠ k' := Ne.symm h
  induction l with
  | nil => simp [setKey, alookup, h']
  | cons kv rest ih =>
    obtain ⟨k'', v''⟩ := kv
    by_cases h2 : k'' = k
    · subst h2
      simp [setKey, alookup, h']
    · simp only [setKey, if_neg h2, alookup, ih]

theorem alookup_delKey_self {α : Type} (l : List (String × α)) (k : String) :
    alookup (delKey l k) k = none := by
  induction l with
  | nil => simp [delKey, alookup]
  | cons kv rest ih =>
    obtain ⟨k', v'⟩ := kv
    by_cases h : k' = k
    · simpa [delKey, List.filter, h] using ih
    · simpa [delKey, List.filter, h, alookup] using ih

theorem alookup_map_snd {α β : Type} (l : List (String × α)) (g : α → β) (k : String) :
    alookup (l.map (fun kv => (kv.1, g kv.2))) k = (alookup l k).map g := by
  induction l with
  | nil => simp [alookup]
  | cons kv rest ih =>
    obtain ⟨k', v'⟩ := kv
    by_cases h : k' = k
    · simp [alookup, h]
    · simp [alookup, h, ih]

theorem isPrefixOf_append (l₁ l₂ : List Char) : l₁.isPrefixOf (l₁ ++ l₂) = true := by
  induction l₁ with
  | nil => simp [List.isPrefixOf]
  | cons c cs ih => simp [List.isPrefixOf, ih]

/-- Occurrence test used to characterize `listReplace`: does `pat` occur
as a contiguous sublist? -/
def occursSub (pat : List Char) : List Char → Bool
  | [] => false
  | c :: cs => pat.isPrefixOf (c :: cs) || occursSub pat cs

theorem listReplaceF_of_not_occursSub (pat rep : List Char) :
    ∀ (fuel : Nat) (l : List Char), occursSub pat l = false →
      listReplaceF pat rep fuel l = l := by
  intro fuel
  induction fuel with
  | zero => intro l _; cases l <;> rfl
  | succ f ih =>
    intro l h
    cases l with
    | nil => rfl
    | cons c cs =>
      simp only [occursSub, Bool.or_eq_false_iff] at h
      simp only [listReplaceF, h.1, Bool.false_eq_true, and_false, if_false, ih cs h.2]

theorem listReplaceF_append_pat (pat rep : List Char) (hp : pat ≠ []) (fuel : Nat)
    (l : List Char) (hf : 1 ≤ fuel) :
    listReplaceF pat rep fuel (pat ++ l) = rep ++ listReplaceF pat rep (fuel - 1) l := by
  match fuel, hf with
  | f + 1, _ =>
    match pat, hp with
    | p :: ps, _ =>
      rw [List.cons_append, listReplaceF]
      have hpre : (p :: ps).isPrefixOf (p :: ps ++ l) = true := by
        simpa using isPrefixOf_append (p :: ps) l
      simp only [← List.cons_append, hpre, List.drop_left, and_true, ne_eq, reduceCtorEq,
        not_false_eq_true, if_true, Nat.add_sub_cancel]

end ClientConfig

namespace ClientConfig

theorem strReplace_secretDot_append (name : String)
    (h : occursSub "secret.".data name.data = false) :
    strReplace ("secret." ++ name) "secret." "" = name := by
  apply String.ext
  show listReplaceF "secret.".data "".data ("secret." ++ name).data.length
    ("secret." ++ name).data = name.data
  rw [String.data_append]
  rw [listReplaceF_append_pat _ _ (by decide) _ _ (by simp), listReplaceF_of_not_occursSub _ _ _ _ h]
  rfl

theorem strStartsWith_append (p s : String) : strStartsWith (p ++ s) p = true := by
  simp [strStartsWith, String.data_append, isPrefixOf_append]

theorem secretDot_append_ne_empty (name : String) : ("secret." ++ name) ≠ "" := by
  intro h
  have h2 : ("secret." ++ name).data = ("" : String).data := by rw [h]
  rw [String.data_append] at h2
  have h3 : ("secret." : String).data = [] := (List.append_eq_nil.mp h2).1
  exact absurd h3 (by decide)

theorem generate_config_id_con (tag hex : String) :
    generate_config_id tag "con" hex = tag ++ "-con-" ++ hex := by
  apply String.ext
  simp [generate_config_id, String.data_append, List.append_assoc]

theorem connStep_alookup_ne (config : List (String × Json)) (client_tag client_id env_id : String)
    (gen : Nat → String) (ctr : Nat) (k : String) (hk : k ≠ "connections") :
    alookup (connStep config client_tag client_id env_id gen ctr).1 k = alookup config k := by
  unfold connStep
  cases hc : alookup config "connections" with
  | none => rfl
  | some v =>
    cases v with
    | obj cs =>
      by_cases hcs : cs.isEmpty
      · simp [hcs]
      · simp [hcs, alookup_setKey_ne _ _ _ _ hk]
    | null => rfl
    | bool b => rfl
    | num n => rfl
    | str s => rfl
    | arr xs => rfl

theorem pipeStep_alookup_ne (config1 : List (String × Json)) (client_tag : String)
    (cmap : List (String × String)) (gen : Nat → String) (ctr1 : Nat) (k : String)
    (hk : k ≠ "pipelines") :
    alookup (pipeStep config1 client_tag cmap gen ctr1).1.config k = alookup config1 k := by
  unfold pipeStep
  cases hp : alookup config1 "pipelines" with
  | none => rfl
  | some v =>
    cases v with
    | obj ps =>
      by_cases hps : ps.isEmpty
      · simp [hps]
      · simp [hps, alookup_setKey_ne _ _ _ _ hk]
    | null => rfl
    | bool b => rfl
    | num n => rfl
    | str s => rfl
    | arr xs => rfl

theorem update_config_ids_alookup_ne (config : List (String × Json))
    (client_tag client_id env_id : String) (gen : Nat → String) (ctr : Nat) (k : String)
    (h1 : k ≠ "connections") (h2 : k ≠ "pipelines") :
    alookup (update_config_ids config client_tag client_id env_id gen ctr).1.config k =
      alookup config k := by
  unfold update_config_ids
  rw [pipeStep_alookup_ne _ _ _ _ _ _ h2, connStep_alookup_ne _ _ _ _ _ _ _ h1]

end ClientConfig

namespace ClientConfig

theorem updateConnections_cmap_mem (client_tag client_id env_id : String) (gen : Nat → String)
    (cs : List (String × Json)) :
    ∀ (ctr : Nat) (s id : String),
      (s, id) ∈ (updateConnections client_tag client_id env_id gen ctr cs).2.1 →
      ∃ i, id = generate_config_id client_tag "con" (gen i) := by
  induction cs with
  | nil =>
    intro ctr s id h
    simp [updateConnections] at h
  | cons kv rest ih =>
    intro ctr s id h
    obtain ⟨ck, cv⟩ := kv
    simp only [updateConnections, List.mem_cons, Prod.mk.injEq] at h
    rcases h with ⟨_, hid⟩ | h
    · exact ⟨ctr, hid⟩
    · exact ih (ctr + 1) s id h

theorem updatePipelines_eq (client_tag : String) (cmap : List (String × String))
    (gen : Nat → String) (ps : List (String × Json)) :
    ∀ ctr : Nat,
      updatePipelines client_tag cmap gen ctr ps =
        ((enumFrom ctr ps).map (fun p =>
            (generate_config_id client_tag "pipe" (gen p.1),
             Json.obj (updatePipelineFields cmap (generate_config_id client_tag "pipe" (gen p.1)) p.2.2))),
         (enumFrom ctr ps).map (fun p => generate_config_id client_tag "pipe" (gen p.1)),
         (enumFrom ctr ps).map (fun p =>
            (p.2.1, generate_config_id client_tag "pipe" (gen p.1))),
         ctr + ps.length) := by
  induction ps with
  | nil => intro ctr; simp [updatePipelines, enumFrom]
  | cons kv rest ih =>
    intro ctr
    obtain ⟨pk, pv⟩ := kv
    simp only [updatePipelines, enumFrom, List.map_cons, ih (ctr + 1), List.length_cons,
      Prod.mk.injEq, true_and]
    omega

end ClientConfig

namespace ClientConfig

theorem updateConnections_eq (client_tag client_id env_id : String) (gen : Nat → String)
    (cs : List (String × Json)) :
    ∀ ctr : Nat,
      updateConnections client_tag client_id env_id gen ctr cs =
        ((enumFrom ctr cs).map (fun p =>
            (generate_config_id client_tag "con" (gen p.1),
             Json.obj (connFields client_id env_id (generate_config_id client_tag "con" (gen p.1)) p.2.2))),
         (enumFrom ctr cs).map (fun p =>
            (p.2.1, generate_config_id client_tag "con" (gen p.1))),
         ctr + cs.length) := by
  induction cs with
  | nil => intro ctr; simp [updateConnections, enumFrom]
  | cons kv rest ih =>
    intro ctr
    obtain ⟨ck, cv⟩ := kv
    simp only [updateConnections, enumFrom, List.map_cons, ih (ctr + 1), List.length_cons,
      Prod.mk.injEq, true_and]
    omega

theorem rewriteField_alookup_ne (client_id env_id f : String) (conn : List (String × Json))
    (k : String) (hk : k ≠ f) :
    alookup (rewriteField client_id env_id f conn) k = alookup conn k := by
  unfold rewriteField
  cases h : alookup conn f with
  | none => rfl
  | some v =>
    cases v with
    | str s =>
      by_cases hc : s ≠ "" ∧ strStartsWith s "secret." = true
      · simp only [if_pos hc]
        exact alookup_setKey_ne _ _ _ _ hk
      · simp only [if_neg hc]
    | null => rfl
    | bool b => rfl
    | num n => rfl
    | arr xs => rfl
    | obj kvs => rfl

theorem ne_empty_of_strStartsWith_secretDot (s : String)
    (h : strStartsWith s "secret." = true) : s ≠ "" := by
  intro he
  subst he
  exact absurd h (by decide)

theorem rewriteField_alookup_self (client_id env_id f : String) (conn : List (String × Json))
    (s : String) (hf : alookup conn f = some (.str s)) (hs : strStartsWith s "secret." = true) :
    alookup (rewriteField client_id env_id f conn) f =
      some (.str (secretPath client_id env_id (strReplace s "secret." ""))) := by
  unfold rewriteField
  simp only [hf]
  rw [if_pos ⟨ne_empty_of_strStartsWith_secretDot s hs, hs⟩, alookup_setKey_self]

theorem connFields_password (client_id env_id new_id : String) (cv : Json) (s : String)
    (hpw : alookup (objFields cv) "password" = some (.str s))
    (hs : strStartsWith s "secret." = true) :
    alookup (connFields client_id env_id new_id cv) "password" =
      some (.str (secretPath client_id env_id (strReplace s "secret." ""))) := by
  unfold connFields
  rw [rewriteField_alookup_ne _ _ _ _ _ (by decide)]
  apply rewriteField_alookup_self
  · rw [alookup_setKey_ne _ _ _ _ (by decide)]
    exact hpw
  · exact hs

theorem validateAll_none_of_all (l : List Json) :
    ∀ i, (∀ r ∈ l, isObj r = true ∧ validate_rule_data r = true) → validateAll i l = none := by
  induction l with
  | nil => intro i _; rfl
  | cons x xs ih =>
    intro i h
    have hx := h x (by simp)
    simp only [validateAll, hx.1, hx.2]
    simp only [Bool.true_eq_false, if_false]
    exact ih (i + 1) (fun r hr => h r (by simp [hr]))

theorem validateAll_isSome_of_bad (l : List Json) :
    ∀ i, (∃ r ∈ l, ¬(isObj r = true ∧ validate_rule_data r = true)) →
      (validateAll i l).isSome = true := by
  induction l with
  | nil => intro i h; simp at h
  | cons x xs ih =>
    intro i h
    simp only [validateAll]
    by_cases h1 : isObj x = false
    · simp [h1]
    · have h1' : isObj x = true := by
        cases hx : isObj x
        · exact absurd hx h1
        · rfl
      by_cases h2 : validate_rule_data x = false
      · simp [h1', h2]
      · have h2' : validate_rule_data x = true := by
          cases hx : validate_rule_data x
          · exact absurd hx h2
          · rfl
        simp only [h1', h2', Bool.true_eq_false, if_false]
        rcases h with ⟨r, hr, hbad⟩
        rcases List.mem_cons.mp hr with heq | hmem
        · subst heq
          exact absurd ⟨h1', h2'⟩ hbad
        · exact ih (i + 1) ⟨r, hmem, hbad⟩

/-- Lowercase hexadecimal characters, as produced by
`secrets.token_hex`. -/
def isLowerHex (c : Char) : Bool :=
  c.isDigit || (decide ('a' ≤ c) && decide (c ≤ 'f'))

/-- The injected generator behaves like `secrets.token_hex(8)`: every draw
is a 16-character lowercase-hex string. -/
def hexOk (gen : Nat → String) : Prop :=
  ∀ i, (gen i).length = 16 ∧ ∀ c ∈ (gen i).data, isLowerHex c = true

end ClientConfig

namespace ClientConfig

theorem filteredRules_nil (pipeline_key : Option String) : filteredRules pipeline_key [] = [] := by
  cases pipeline_key with
  | none => rfl
  | some k =>
    by_cases hk : k = "" <;> simp [filteredRules, hk]

theorem filteredRules_of_not_truthy (pipeline_key : Option String) (l : List Json)
    (h : truthyKey pipeline_key = false) : filteredRules pipeline_key l = l := by
  cases pipeline_key with
  | none => rfl
  | some k =>
    simp only [truthyKey, ne_eq, decide_not, Bool.not_eq_false', decide_eq_true_eq] at h
    simp [filteredRules, h]

/-- C5: in `insert_download_rules`, every record of the (already filtered)
list is validated to have the three required string fields before any row
is written; a record failing validation makes the invocation return a
failure result with zero rows written to the table store. -/
theorem C5_download_validation_aborts (rules_data : List Json) (pipeline_key : Option String)
    (env_id client_id pipeline_id : String) (guids : List String) (dry_run : Bool)
    (ok : Nat → Bool) (r : Json)
    (hr : r ∈ filteredRules pipeline_key rules_data)
    (hbad : ¬(isObj r = true ∧ validate_rule_data r = true)) :
    (insert_download_rules rules_data pipeline_key env_id client_id pipeline_id
        guids dry_run ok).1.success = false ∧
    (insert_download_rules rules_data pipeline_key env_id client_id pipeline_id
        guids dry_run ok).2.1 = [] := by
  have hne : rules_data.isEmpty = false := by
    cases rules_data with
    | nil =>
      rw [filteredRules_nil] at hr
      simp at hr
    | cons a as => rfl
  have hfne : (filteredRules pipeline_key rules_data).isEmpty = false := by
    cases hc : filteredRules pipeline_key rules_data with
    | nil => rw [hc] at hr; simp at hr
    | cons a as => rfl
  have hsome : (validateAll 0 (filteredRules pipeline_key rules_data)).isSome = true :=
    validateAll_isSome_of_bad _ 0 ⟨r, hr, hbad⟩
  rcases Option.isSome_iff_exists.mp hsome with ⟨e, he⟩
  simp only [insert_download_rules, hne, Bool.false_eq_true, if_false, hfne, and_false, he,
    DownloadResult.fail]
  exact ⟨trivial, trivial⟩

/-- Witness for C5 at a concrete invalid record (missing `values`). -/
theorem C5_download_validation_aborts_witness :
    ((.obj [("description", .str "a"), ("type", .str "x")] : Json) ∈
        filteredRules none [.obj [("description", .str "a"), ("type", .str "x")]]) ∧
    ¬(isObj (.obj [("description", .str "a"), ("type", .str "x")] : Json) = true ∧
        validate_rule_data (.obj [("description", .str "a"), ("type", .str "x")]) = true) ∧
    ((insert_download_rules [.obj [("description", .str "a"), ("type", .str "x")]] none
        "E" "C" "P" ["g"] false (fun _ => true)).1.success = false ∧
     (insert_download_rules [.obj [("description", .str "a"), ("type", .str "x")]] none
        "E" "C" "P" ["g"] false (fun _ => true)).2.1 = []) := by
  refine ⟨List.mem_singleton.mpr rfl, by decide, ?_⟩
  exact C5_download_validation_aborts _ none "E" "C" "P" ["g"] false (fun _ => true) _
    (List.mem_singleton.mpr rfl) (by decide)

/-- C10: an empty rules array, or a pipeline filter that leaves zero
records, yields a success result with zero counts and a `None` batch
identifier, no row writes, and an untouched batch-identifier supply. -/
theorem C10_download_empty (rules_data : List Json) (pipeline_key : Option String)
    (env_id client_id pipeline_id : String) (guids : List String) (dry_run : Bool)
    (ok : Nat → Bool)
    (h : rules_data.isEmpty = true ∨ (filteredRules pipeline_key rules_data).isEmpty = true) :
    insert_download_rules rules_data pipeline_key env_id client_id pipeline_id guids dry_run ok =
      (⟨true, none, 0, 0, 0, none⟩, [], guids) := by
  by_cases he : rules_data.isEmpty = true
  · simp only [insert_download_rules, he, if_true]
    rfl
  · have hf : (filteredRules pipeline_key rules_data).isEmpty = true := by
      rcases h with h | h
      · exact absurd h he
      · exact h
    have hne' : rules_data.isEmpty = false := by
      cases hb : rules_data.isEmpty with
      | true => exact absurd hb he
      | false => rfl
    cases htk : truthyKey pipeline_key with
    | true =>
      simp only [insert_download_rules, hne', Bool.false_eq_true, if_false, htk, hf, and_self,
        if_true]
      rfl
    | false =>
      rw [filteredRules_of_not_truthy _ _ htk] at hf
      exact absurd hf he

/-- Witness for C10 at a concrete filtered-to-empty invocation. -/
theorem C10_download_empty_witness :
    (filteredRules (some "p9")
        [.obj [("description", .str "a"), ("type", .str "x"), ("values", .str "1"),
          ("pipeline", .str "p1")]]).isEmpty = true ∧
    insert_download_rules
        [.obj [("description", .str "a"), ("type", .str "x"), ("values", .str "1"),
          ("pipeline", .str "p1")]]
        (some "p9") "E" "C" "P" ["g"] false (fun _ => true) =
      (⟨true, none, 0, 0, 0, none⟩, [], ["g"]) := by
  refine ⟨rfl, ?_⟩
  exact C10_download_empty _ (some "p9") "E" "C" "P" ["g"] false (fun _ => true) (Or.inr rfl)

end ClientConfig

namespace ClientConfig

/-- C6: with a truthy pipeline filter key, exactly the records whose
`pipeline` field equals the key are kept (no filtering without a key);
every written row receives the identifier `{batch_guid}#rule_{n}` with `n`
its 1-based position in the filtered list, and the single batch identifier
drawn from the supply is shared by all rows and returned in the result. -/
theorem C6_download_filter_and_rule_ids (rules_data : List Json) (k : String)
    (env_id client_id pipeline_id : String) (guids : List String) (ok : Nat → Bool)
    (hk : k ≠ "")
    (hval : ∀ r ∈ rules_data.filter (pipelineMatches k),
      isObj r = true ∧ validate_rule_data r = true)
    (hne : (rules_data.filter (pipelineMatches k)).isEmpty = false) :
    filteredRules (some k) rules_data = rules_data.filter (pipelineMatches k) ∧
    filteredRules none rules_data = rules_data ∧
    (insert_download_rules rules_data (some k) env_id client_id pipeline_id
        guids false ok).1.rule_guid = some (guids.headD "") ∧
    (insert_download_rules rules_data (some k) env_id client_id pipeline_id
        guids false ok).2.1 =
      (enumFrom 0 (rules_data.filter (pipelineMatches k))).map (fun p =>
        convert_to_dynamodb_item p.2 (generate_rule_id (guids.headD "") (p.1 + 1))
          env_id client_id pipeline_id) := by
  have hflt : filteredRules (some k) rules_data = rules_data.filter (pipelineMatches k) := by
    simp [filteredRules, hk]
  have hempty : rules_data.isEmpty = false := by
    cases rules_data with
    | nil => simp at hne
    | cons a as => rfl
  have hvall : validateAll 0 (rules_data.filter (pipelineMatches k)) = none :=
    validateAll_none_of_all _ 0 hval
  refine ⟨hflt, rfl, ?_, ?_⟩ <;>
    simp only [insert_download_rules, hempty, Bool.false_eq_true, if_false, hflt, hne,
      and_false, if_false, hvall, Bool.false_eq_true, if_false] <;>
    rfl

/-- Witness for C6: a 5-record list of which exactly 2 match `p1` (the
worked example of the specification). -/
theorem C6_download_filter_and_rule_ids_witness :
    (("p1" : String) ≠ "") ∧
    (insert_download_rules
        [.obj [("description", .str "a"), ("type", .str "x"), ("values", .str "1"),
          ("pipeline", .str "p1")],
         .obj [("description", .str "b"), ("type", .str "y"), ("values", .str "2"),
          ("pipeline", .str "p2")],
         .obj [("description", .str "c"), ("type", .str "z"), ("values", .str "3"),
          ("pipeline", .str "p1")],
         .obj [("description", .str "d"), ("type", .str "w"), ("values", .str "4")],
         .obj [("description", .str "e"), ("type", .str "v"), ("values", .str "5"),
          ("pipeline", .str "p3")]]
        (some "p1") "E" "C" "P" ["g"] false (fun _ => true)).1.rule_guid = some "g" ∧
    (insert_download_rules
        [.obj [("description", .str "a"), ("type", .str "x"), ("values", .str "1"),
          ("pipeline", .str "p1")],
         .obj [("description", .str "b"), ("type", .str "y"), ("values", .str "2"),
          ("pipeline", .str "p2")],
         .obj [("description", .str "c"), ("type", .str "z"), ("values", .str "3"),
          ("pipeline", .str "p1")],
         .obj [("description", .str "d"), ("type", .str "w"), ("values", .str "4")],
         .obj [("description", .str "e"), ("type", .str "v"), ("values", .str "5"),
          ("pipeline", .str "p3")]]
        (some "p1") "E" "C" "P" ["g"] false (fun _ => true)).2.1 =
      [convert_to_dynamodb_item
          (.obj [("description", .str "a"), ("type", .str "x"), ("values", .str "1"),
            ("pipeline", .str "p1")]) (generate_rule_id "g" 1) "E" "C" "P",
       convert_to_dynamodb_item
          (.obj [("description", .str "c"), ("type", .str "z"), ("values", .str "3"),
            ("pipeline", .str "p1")]) (generate_rule_id "g" 2) "E" "C" "P"] := by
  have h := C6_download_filter_and_rule_ids
    [.obj [("description", .str "a"), ("type", .str "x"), ("values", .str "1"),
      ("pipeline", .str "p1")],
     .obj [("description", .str "b"), ("type", .str "y"), ("values", .str "2"),
      ("pipeline", .str "p2")],
     .obj [("description", .str "c"), ("type", .str "z"), ("values", .str "3"),
      ("pipeline", .str "p1")],
     .obj [("description", .str "d"), ("type", .str "w"), ("values", .str "4")],
     .obj [("description", .str "e"), ("type", .str "v"), ("values", .str "5"),
      ("pipeline", .str "p3")]]
    "p1" "E" "C" "P" ["g"] (fun _ => true) (by decide) (by decide) (by rfl)
  exact ⟨by decide, h.2.2.1, h.2.2.2⟩

end ClientConfig

namespace ClientConfig

/-- C7: an enrichment record with version `"3"` is normalized to the
numeric (Dynamo `N`-typed) version `3`; and whenever any record of the
batch fails normalization (missing `environment_id`, `version` or
`rules_json`, or a non-numeric `version` such as `"abc"`, whose error
message names the offending field), the whole invocation returns a
failure carrying that error and writes zero rows. -/
theorem C7_enrichment_version_and_abort :
    (_build_dynamo_item
        (.obj [("environment_id", .str "e"), ("version", .str "3"), ("rules_json", .str "r")])
        [] none =
      .ok ([("environment_id", .obj [("S", .str "e")]),
            ("version", .obj [("N", .str "3")]),
            ("rules_json", .obj [("S", .str "r")])],
           [("environment_id", .str "e"),
            ("version", .num 3),
            ("rules_json", .str "r")])) ∧
    (_build_dynamo_item
        (.obj [("environment_id", .str "e"), ("version", .str "abc"), ("rules_json", .str "r")])
        [] none =
      .error "version 'abc' is not a number") ∧
    (_build_dynamo_item (.obj [("version", .str "3"), ("rules_json", .str "r")]) [] none =
      .error "environment_id is required") ∧
    (_build_dynamo_item (.obj [("environment_id", .str "e"), ("rules_json", .str "r")]) [] none =
      .error "version is required") ∧
    (_build_dynamo_item (.obj [("environment_id", .str "e"), ("version", .str "3")]) [] none =
      .error "rules_json is required") ∧
    (∀ (rules_data : List Json) (environment_id_map : List (String × String))
        (client_id : Option String) (dry_run : Bool) (ok : Nat → Bool) (e : String),
      buildAll environment_id_map client_id rules_data = .error e →
      insert_enrichment_rules rules_data environment_id_map client_id dry_run ok =
        (⟨false, some e, 0, 0, 0⟩, [])) := by
  refine ⟨rfl, rfl, rfl, rfl, rfl, ?_⟩
  intro rules_data environment_id_map client_id dry_run ok e h
  simp only [insert_enrichment_rules, h]

/-- Witness for C7: a two-record batch whose second record has version
`"abc"` fails as a whole with zero rows written. -/
theorem C7_enrichment_version_and_abort_witness :
    (buildAll [] none
        [.obj [("environment_id", .str "e"), ("version", .str "3"), ("rules_json", .str "r")],
         .obj [("environment_id", .str "e"), ("version", .str "abc"), ("rules_json", .str "r")]] =
      .error "version 'abc' is not a number") ∧
    insert_enrichment_rules
        [.obj [("environment_id", .str "e"), ("version", .str "3"), ("rules_json", .str "r")],
         .obj [("environment_id", .str "e"), ("version", .str "abc"), ("rules_json", .str "r")]]
        [] none false (fun _ => true) =
      (⟨false, some "version 'abc' is not a number", 0, 0, 0⟩, []) := by
  refine ⟨rfl, ?_⟩
  exact C7_enrichment_version_and_abort.2.2.2.2.2
    [.obj [("environment_id", .str "e"), ("version", .str "3"), ("rules_json", .str "r")],
     .obj [("environment_id", .str "e"), ("version", .str "abc"), ("rules_json", .str "r")]]
    [] none false (fun _ => true) "version 'abc' is not a number" rfl

end ClientConfig

namespace ClientConfig

theorem alookup_mem {α : Type} (l : List (String × α)) (k : String) (v : α)
    (h : alookup l k = some v) : (k, v) ∈ l := by
  induction l with
  | nil => simp [alookup] at h
  | cons kv rest ih =>
    obtain ⟨k', v'⟩ := kv
    by_cases hk : k' = k
    · subst hk
      have h' : v' = v := by simpa [alookup] using h
      subst h'
      exact List.mem_cons_self _ _
    · simp only [alookup, if_neg hk] at h
      exact List.mem_cons_of_mem _ (ih h)

theorem connStep_of_obj (config : List (String × Json)) (client_tag client_id env_id : String)
    (gen : Nat → String) (ctr : Nat) (cs : List (String × Json))
    (hc : alookup config "connections" = some (.obj cs)) (hcne : cs.isEmpty = false) :
    connStep config client_tag client_id env_id gen ctr =
      (setKey config "connections"
          (.obj (updateConnections client_tag client_id env_id gen ctr cs).1),
       (updateConnections client_tag client_id env_id gen ctr cs).2.1,
       (updateConnections client_tag client_id env_id gen ctr cs).2.2) := by
  unfold connStep
  simp [hc, hcne]

theorem pipeStep_of_obj (config1 : List (String × Json)) (client_tag : String)
    (cmap : List (String × String)) (gen : Nat → String) (ctr1 : Nat)
    (ps : List (String × Json))
    (hp : alookup config1 "pipelines" = some (.obj ps)) (hpne : ps.isEmpty = false) :
    pipeStep config1 client_tag cmap gen ctr1 =
      (⟨setKey config1 "pipelines" (.obj (updatePipelines client_tag cmap gen ctr1 ps).1),
        (updatePipelines client_tag cmap gen ctr1 ps).2.1,
        (updatePipelines client_tag cmap gen ctr1 ps).2.2.1⟩,
       (updatePipelines client_tag cmap gen ctr1 ps).2.2.2) := by
  unfold pipeStep
  simp [hp, hpne]

theorem updatePipelineFields_connections (cmap : List (String × String)) (new_id : String)
    (pv : Json) (sub : List (String × Json))
    (hsub : alookup (objFields pv) "connections" = some (.obj sub))
    (hsubne : sub.isEmpty = false) :
    alookup (updatePipelineFields cmap new_id pv) "connections" =
      some (.obj (sub.map (fun kv => (kv.1, rewriteConnRef cmap kv.2)))) := by
  unfold updatePipelineFields
  have h1 : alookup (setKey (objFields pv) "id" (.str new_id)) "connections" =
      some (.obj sub) := by
    rw [alookup_setKey_ne _ _ _ _ (by decide)]
    exact hsub
  simp only [h1, hsubne, Bool.not_false, if_true]
  exact alookup_setKey_self _ _ _

end ClientConfig

namespace ClientConfig

/-- C8: for a pipeline whose `connections` sub-map references a connection
symbolic key present in the same environment (i.e. in the connection
symbol table built by the first pass over `ctr..ctr+|cs|`), the rewritten
pipeline's entry equals the identifier generated for that connection in
the same pass; that identifier matches `{client_tag}-con-` followed by 16
lowercase hex characters whenever the injected generator behaves like
`secrets.token_hex(8)`; and the pipelines pass consumes the completed
connection table (the pipeline in question draws generator index
`i ≥ ctr + |cs|`). -/
theorem C8_pipeline_reference_resolution (config : List (String × Json))
    (client_tag client_id env_id : String) (gen : Nat → String) (ctr : Nat)
    (cs ps : List (String × Json)) (i : Nat) (pk : String) (pv : Json)
    (sub : List (String × Json)) (t s connId : String)
    (hgen : hexOk gen)
    (hc : alookup config "connections" = some (.obj cs))
    (hcne : cs.isEmpty = false)
    (hp : alookup config "pipelines" = some (.obj ps))
    (hpne : ps.isEmpty = false)
    (hmem : (i, (pk, pv)) ∈ enumFrom (ctr + cs.length) ps)
    (hsub : alookup (objFields pv) "connections" = some (.obj sub))
    (hsubne : sub.isEmpty = false)
    (ht : alookup sub t = some (.str s))
    (hid : alookup (updateConnections client_tag client_id env_id gen ctr cs).2.1 s =
      some connId) :
    (∃ h, connId = client_tag ++ "-con-" ++ h ∧ h.length = 16 ∧
      ∀ c ∈ h.data, isLowerHex c = true) ∧
    (∃ newPs,
      alookup (update_config_ids config client_tag client_id env_id gen ctr).1.config
          "pipelines" = some (.obj newPs) ∧
      (generate_config_id client_tag "pipe" (gen i),
        Json.obj (updatePipelineFields
          (updateConnections client_tag client_id env_id gen ctr cs).2.1
          (generate_config_id client_tag "pipe" (gen i)) pv)) ∈ newPs ∧
      alookup (updatePipelineFields
          (updateConnections client_tag client_id env_id gen ctr cs).2.1
          (generate_config_id client_tag "pipe" (gen i)) pv) "connections" =
        some (.obj (sub.map (fun kv =>
          (kv.1, rewriteConnRef
            (updateConnections client_tag client_id env_id gen ctr cs).2.1 kv.2)))) ∧
      alookup (sub.map (fun kv =>
          (kv.1, rewriteConnRef
            (updateConnections client_tag client_id env_id gen ctr cs).2.1 kv.2))) t =
        some (.str connId)) := by
  constructor
  · have hmemMap := alookup_mem _ _ _ hid
    rcases updateConnections_cmap_mem client_tag client_id env_id gen cs ctr s connId hmemMap
      with ⟨j, hj⟩
    refine ⟨gen j, ?_, (hgen j).1, (hgen j).2⟩
    rw [hj, generate_config_id_con]
  · have hctr : (updateConnections client_tag client_id env_id gen ctr cs).2.2 =
        ctr + cs.length := by
      rw [updateConnections_eq]
    have hcfg1 : (connStep config client_tag client_id env_id gen ctr).1 =
        setKey config "connections"
          (.obj (updateConnections client_tag client_id env_id gen ctr cs).1) := by
      rw [connStep_of_obj _ _ _ _ _ _ _ hc hcne]
    have hp1 : alookup (connStep config client_tag client_id env_id gen ctr).1 "pipelines" =
        some (.obj ps) := by
      rw [hcfg1, alookup_setKey_ne _ _ _ _ (by decide)]
      exact hp
    refine ⟨(updatePipelines client_tag
        (updateConnections client_tag client_id env_id gen ctr cs).2.1 gen
        (ctr + cs.length) ps).1, ?_, ?_, ?_, ?_⟩
    · show alookup (update_config_ids config client_tag client_id env_id gen ctr).1.config
          "pipelines" = _
      unfold update_config_ids
      rw [connStep_of_obj _ _ _ _ _ _ _ hc hcne, hctr]
      show alookup (pipeStep
          (setKey config "connections"
            (.obj (updateConnections client_tag client_id env_id gen ctr cs).1))
          client_tag (updateConnections client_tag client_id env_id gen ctr cs).2.1 gen
          (ctr + cs.length)).1.config "pipelines" = _
      rw [pipeStep_of_obj _ _ _ _ _ ps
        (by rw [alookup_setKey_ne _ _ _ _ (by decide)]; exact hp) hpne]
      exact alookup_setKey_self _ _ _
    · rw [updatePipelines_eq]
      exact List.mem_map.mpr ⟨(i, (pk, pv)), hmem, rfl⟩
    · exact updatePipelineFields_connections _ _ _ _ hsub hsubne
    · rw [alookup_map_snd, ht]
      simp [rewriteConnRef, hid]

/-- Witness for C8 at a one-connection, one-pipeline environment with a
fixed generator. -/
theorem C8_pipeline_reference_resolution_witness :
    hexOk (fun _ => "0123456789abcdef") ∧
    (alookup
        [("connections", Json.obj [("db", .obj [])]),
         ("pipelines", Json.obj [("p", .obj [("connections", .obj [("main", .str "db")])])])]
        "connections" = some (.obj [("db", .obj [])])) ∧
    ((1, ("p", Json.obj [("connections", Json.obj [("main", Json.str "db")])])) ∈
      enumFrom (0 + ([("db", Json.obj [])] : List (String × Json)).length)
        [("p", Json.obj [("connections", Json.obj [("main", Json.str "db")])])]) ∧
    (alookup (updateConnections "t" "C" "E" (fun _ => "0123456789abcdef") 0
        [("db", Json.obj [])]).2.1 "db" = some "t-con-0123456789abcdef") ∧
    (∃ h, ("t-con-0123456789abcdef" : String) = "t" ++ "-con-" ++ h ∧ h.length = 16 ∧
      ∀ c ∈ h.data, isLowerHex c = true) ∧
    (∃ newPs,
      alookup (update_config_ids
          [("connections", Json.obj [("db", .obj [])]),
           ("pipelines", Json.obj [("p", .obj [("connections", .obj [("main", .str "db")])])])]
          "t" "C" "E" (fun _ => "0123456789abcdef") 0).1.config "pipelines" =
        some (.obj newPs) ∧
      (generate_config_id "t" "pipe" "0123456789abcdef",
        Json.obj (updatePipelineFields
          (updateConnections "t" "C" "E" (fun _ => "0123456789abcdef") 0
            [("db", Json.obj [])]).2.1
          (generate_config_id "t" "pipe" "0123456789abcdef")
          (Json.obj [("connections", Json.obj [("main", Json.str "db")])]))) ∈ newPs ∧
      alookup (updatePipelineFields
          (updateConnections "t" "C" "E" (fun _ => "0123456789abcdef") 0
            [("db", Json.obj [])]).2.1
          (generate_config_id "t" "pipe" "0123456789abcdef")
          (Json.obj [("connections", Json.obj [("main", Json.str "db")])])) "connections" =
        some (.obj ([("main", Json.str "db")].map (fun kv =>
          (kv.1, rewriteConnRef
            (updateConnections "t" "C" "E" (fun _ => "0123456789abcdef") 0
              [("db", Json.obj [])]).2.1 kv.2)))) ∧
      alookup ([("main", Json.str "db")].map (fun kv =>
          (kv.1, rewriteConnRef
            (updateConnections "t" "C" "E" (fun _ => "0123456789abcdef") 0
              [("db", Json.obj [])]).2.1 kv.2))) "main" =
        some (.str "t-con-0123456789abcdef")) := by
  have hgen : hexOk (fun _ => "0123456789abcdef") := by
    intro i
    refine ⟨rfl, ?_⟩
    show ∀ c ∈ ("0123456789abcdef" : String).data, isLowerHex c = true
    decide
  have h := C8_pipeline_reference_resolution
    [("connections", Json.obj [("db", .obj [])]),
     ("pipelines", Json.obj [("p", .obj [("connections", .obj [("main", .str "db")])])])]
    "t" "C" "E" (fun _ => "0123456789abcdef") 0
    [("db", Json.obj [])]
    [("p", Json.obj [("connections", Json.obj [("main", Json.str "db")])])]
    1 "p" (Json.obj [("connections", Json.obj [("main", Json.str "db")])])
    [("main", Json.str "db")] "main" "db" "t-con-0123456789abcdef"
    hgen rfl rfl rfl rfl (List.mem_singleton.mpr rfl) rfl rfl rfl rfl
  exact ⟨hgen, rfl, List.mem_singleton.mpr rfl, rfl, h.1, h.2⟩

end ClientConfig

namespace ClientConfig

/-- Environment input for the C1 counterexample: the secret map contains
the name `secret.a` and the connection references it as
`secret.secret.a`. -/
def c1Env : List (String × Json) :=
  [("tag", .str "d"),
   ("secret", .obj [("secret.a", .str "v")]),
   ("connections", .obj [("db", .obj [("password", .str "secret.secret.a")])])]

/-- C1 counterexample: for the connection field `secret.secret.a` whose
referenced name `secret.a` is present in the environment's secret map,
the rewrite stores the path ending in `/secrets/a` — `replace("secret.",
"")` removes every occurrence, not only the leading prefix — instead of
the claimed path ending in `/secrets/secret.a`. -/
theorem C1_counterexample :
    alookup c1Env "secret" = some (.obj [("secret.a", .str "v")]) ∧
    alookup (processEnv "t" "C" (fun _ => "0000000000000000") (fun _ => true) false 0
        c1Env).stored_config "connections" =
      some (.obj [("t-con-0000000000000000", .obj
        [("password", .str "/spec/enrichment/clients/C/envs/t-d-0000000000000000/secrets/a"),
         ("id", .str "t-con-0000000000000000")])]) ∧
    ("/spec/enrichment/clients/C/envs/t-d-0000000000000000/secrets/a" : String) ≠
      "/spec/enrichment/clients/C/envs/t-d-0000000000000000/secrets/secret.a" := by
  exact ⟨rfl, rfl, by decide⟩

/-- C1 (amended): a `secret.<name>` field of any connection is rewritten
to the secret-store path of `<name>` with every occurrence of `secret.`
removed; when `<name>` itself contains no `secret.` substring this is
exactly the claimed path `/spec/enrichment/clients/{client_id}/envs/
{env_id}/secrets/<name>` (the secret map plays no role in the rewrite). -/
theorem C1_secret_rewrite_amended (config : List (String × Json))
    (client_tag client_id env_id : String) (gen : Nat → String) (ctr i : Nat)
    (cs : List (String × Json)) (ck : String) (cv : Json) (name : String)
    (hc : alookup config "connections" = some (.obj cs))
    (hcne : cs.isEmpty = false)
    (hmem : (i, (ck, cv)) ∈ enumFrom ctr cs)
    (hpw : alookup (objFields cv) "password" = some (.str ("secret." ++ name)))
    (hname : occursSub "secret.".data name.data = false) :
    ∃ newCs,
      alookup (update_config_ids config client_tag client_id env_id gen ctr).1.config
          "connections" = some (.obj newCs) ∧
      (generate_config_id client_tag "con" (gen i),
        Json.obj (connFields client_id env_id
          (generate_config_id client_tag "con" (gen i)) cv)) ∈ newCs ∧
      alookup (connFields client_id env_id
          (generate_config_id client_tag "con" (gen i)) cv) "password" =
        some (.str (secretPath client_id env_id name)) := by
  refine ⟨(updateConnections client_tag client_id env_id gen ctr cs).1, ?_, ?_, ?_⟩
  · unfold update_config_ids
    rw [connStep_of_obj _ _ _ _ _ _ _ hc hcne]
    show alookup (pipeStep
        (setKey config "connections"
          (.obj (updateConnections client_tag client_id env_id gen ctr cs).1))
        client_tag (updateConnections client_tag client_id env_id gen ctr cs).2.1 gen
        (updateConnections client_tag client_id env_id gen ctr cs).2.2).1.config
        "connections" = _
    rw [pipeStep_alookup_ne _ _ _ _ _ _ (by decide)]
    exact alookup_setKey_self _ _ _
  · rw [updateConnections_eq]
    exact List.mem_map.mpr ⟨(i, (ck, cv)), hmem, rfl⟩
  · rw [connFields_password _ _ _ _ _ hpw (strStartsWith_append _ _),
      strReplace_secretDot_append _ hname]

/-- Witness for the amended C1 at a one-connection environment. -/
theorem C1_secret_rewrite_amended_witness :
    (alookup [("connections", Json.obj [("db", .obj [("password", .str "secret.a")])])]
      "connections" = some (.obj [("db", .obj [("password", .str "secret.a")])])) ∧
    (occursSub "secret.".data ("a" : String).data = false) ∧
    ∃ newCs,
      alookup (update_config_ids
          [("connections", Json.obj [("db", .obj [("password", .str "secret.a")])])]
          "t" "C" "E" (fun _ => "0000000000000000") 0).1.config "connections" =
        some (.obj newCs) ∧
      (generate_config_id "t" "con" "0000000000000000",
        Json.obj (connFields "C" "E" (generate_config_id "t" "con" "0000000000000000")
          (.obj [("password", .str "secret.a")]))) ∈ newCs ∧
      alookup (connFields "C" "E" (generate_config_id "t" "con" "0000000000000000")
          (.obj [("password", .str "secret.a")])) "password" =
        some (.str (secretPath "C" "E" "a")) := by
  refine ⟨rfl, by decide, ?_⟩
  exact C1_secret_rewrite_amended
    [("connections", Json.obj [("db", .obj [("password", .str "secret.a")])])]
    "t" "C" "E" (fun _ => "0000000000000000") 0 0
    [("db", Json.obj [("password", Json.str "secret.a")])] "db"
    (Json.obj [("password", Json.str "secret.a")]) "a"
    rfl rfl (List.mem_singleton.mpr rfl) rfl (by decide)

end ClientConfig

namespace ClientConfig

/-- Environment input for the C3 counterexample: the connection references
secret name `missing`, which is absent from the environment's secret
map. -/
def c3Env : List (String × Json) :=
  [("tag", .str "d"),
   ("secret", .obj [("other", .str "w")]),
   ("connections", .obj [("db", .obj [("password", .str "secret.missing")])])]

/-- C3 counterexample: a connection secret reference whose name is absent
from the environment's secret map is NOT left unchanged — the rewrite
still replaces it by the (dangling) parameter-store path, because
`update_config_ids` never consults the secret map. -/
theorem C3_counterexample :
    alookup c3Env "secret" = some (.obj [("other", .str "w")]) ∧
    alookup (processEnv "t" "C" (fun _ => "0000000000000000") (fun _ => true) false 0
        c3Env).stored_config "connections" =
      some (.obj [("t-con-0000000000000000", .obj
        [("password",
          .str "/spec/enrichment/clients/C/envs/t-d-0000000000000000/secrets/missing"),
         ("id", .str "t-con-0000000000000000")])]) ∧
    ("/spec/enrichment/clients/C/envs/t-d-0000000000000000/secrets/missing" : String) ≠
      "secret.missing" := by
  exact ⟨rfl, rfl, by decide⟩

/-- C3 (amended): the rewrite raises no error in either case, but only
pipeline connection references behave as claimed — a reference absent from
the connection symbol table passes through unchanged — while a connection
`secret.`-field is rewritten to the store path unconditionally (the
rewrite takes no secret map at all, so an unresolvable secret name yields
a dangling path rather than a pass-through). -/
theorem C3_unresolved_reference_amended :
    (∀ (cmap : List (String × String)) (new_id : String) (pv : Json)
        (sub : List (String × Json)) (t s : String),
      alookup (objFields pv) "connections" = some (.obj sub) →
      sub.isEmpty = false →
      alookup sub t = some (.str s) →
      alookup cmap s = none →
      alookup (updatePipelineFields cmap new_id pv) "connections" =
        some (.obj (sub.map (fun kv => (kv.1, rewriteConnRef cmap kv.2)))) ∧
      alookup (sub.map (fun kv => (kv.1, rewriteConnRef cmap kv.2))) t = some (.str s)) ∧
    (∀ (client_id env_id field : String) (conn : List (String × Json)) (s : String),
      alookup conn field = some (.str s) →
      strStartsWith s "secret." = true →
      alookup (rewriteField client_id env_id field conn) field =
        some (.str (secretPath client_id env_id (strReplace s "secret." "")))) := by
  constructor
  · intro cmap new_id pv sub t s hsub hsubne ht hnone
    refine ⟨updatePipelineFields_connections _ _ _ _ hsub hsubne, ?_⟩
    rw [alookup_map_snd, ht]
    simp [rewriteConnRef, hnone]
  · intro client_id env_id field conn s hf hs
    exact rewriteField_alookup_self _ _ _ _ _ hf hs

/-- Witness for the amended C3: a dangling pipeline reference passes
through; a dangling secret reference is rewritten to its path. -/
theorem C3_unresolved_reference_amended_witness :
    (alookup ([] : List (String × String)) "nope" = none ∧
     (alookup (updatePipelineFields [] "P" (.obj [("connections", .obj [("main", .str "nope")])]))
        "connections" =
       some (.obj ([("main", Json.str "nope")].map
         (fun kv => (kv.1, rewriteConnRef [] kv.2)))) ∧
      alookup ([("main", Json.str "nope")].map (fun kv => (kv.1, rewriteConnRef [] kv.2)))
        "main" = some (.str "nope"))) ∧
    (strStartsWith "secret.missing" "secret." = true ∧
     alookup (rewriteField "C" "E" "password" [("password", .str "secret.missing")])
        "password" = some (.str (secretPath "C" "E" (strReplace "secret.missing" "secret." "")))) := by
  constructor
  · refine ⟨rfl, ?_⟩
    exact C3_unresolved_reference_amended.1 [] "P"
      (.obj [("connections", .obj [("main", .str "nope")])])
      [("main", Json.str "nope")] "main" "nope" rfl rfl rfl rfl
  · refine ⟨rfl, ?_⟩
    exact C3_unresolved_reference_amended.2 "C" "E" "password"
      [("password", .str "secret.missing")] "secret.missing" rfl rfl

end ClientConfig

namespace ClientConfig

/-- Environment input for the C9 counterexample: a nonempty secret map. -/
def c9Env : List (String × Json) :=
  [("tag", .str "d"), ("secret", .obj [("k", .str "v")])]

/-- C9 counterexample: when the environment configuration parameter write
fails in a live run, the loop `continue`s and the environment's secrets
are never written — no `SecureString` write at the secret path is issued
even though the secret map is nonempty. -/
theorem C9_counterexample :
    alookup c9Env "secret" = some (.obj [("k", .str "v")]) ∧
    (processEnv "t" "C" (fun _ => "0000000000000000") (fun _ => false) false 0 c9Env).writes =
      [⟨envConfigPath "C" "t-d-0000000000000000",
        .obj [("tag", .str "d"), ("id", .str "t-d-0000000000000000")], false⟩] ∧
    (processEnv "t" "C" (fun _ => "0000000000000000") (fun _ => false) false 0
        c9Env).writes.map (fun w => w.secure) = [false] := by
  exact ⟨rfl, rfl, rfl⟩

/-- C9 (amended): provided the environment configuration write succeeds,
the stored environment blob no longer contains the `secret` mapping, and
every secret of the mapping is written individually as a `SecureString`
at `/spec/enrichment/clients/{client_id}/envs/{env_id}/secrets/{name}`
(when the write fails, the environment's secrets are skipped — see the
counterexample). -/
theorem C9_secret_extraction_amended (client_tag client_id : String) (gen : Nat → String)
    (ok : String → Bool) (ctr : Nat) (env_cfg : List (String × Json))
    (env_tag : String) (m : List (String × Json))
    (htag : alookup env_cfg "tag" = some (.str env_tag))
    (hsec : alookup env_cfg "secret" = some (.obj m))
    (hok : ok (envConfigPath client_id (generate_config_id client_tag env_tag (gen ctr))) =
      true) :
    alookup (processEnv client_tag client_id gen ok false ctr env_cfg).stored_config
        "secret" = none ∧
    (processEnv client_tag client_id gen ok false ctr env_cfg).writes =
      ⟨envConfigPath client_id (generate_config_id client_tag env_tag (gen ctr)),
        .obj (processEnv client_tag client_id gen ok false ctr env_cfg).stored_config,
        false⟩ ::
      m.map (fun kv =>
        ⟨secretPath client_id (generate_config_id client_tag env_tag (gen ctr)) kv.1,
          kv.2, true⟩) := by
  have hsec' : alookup (setKey env_cfg "id"
      (.str (generate_config_id client_tag env_tag (gen ctr)))) "secret" = some (.obj m) := by
    rw [alookup_setKey_ne _ _ _ _ (by decide)]
    exact hsec
  constructor
  · show alookup (processEnv client_tag client_id gen ok false ctr env_cfg).stored_config
        "secret" = none
    simp only [processEnv, htag, hsec', hok, Bool.false_eq_true, Bool.true_eq_false, if_false]
    rw [update_config_ids_alookup_ne _ _ _ _ _ _ _ (by decide) (by decide),
      alookup_delKey_self]
  · simp only [processEnv, htag, hsec', hok, Bool.false_eq_true, Bool.true_eq_false, if_false]
    by_cases hm : m.isEmpty
    · have hm' : m = [] := List.isEmpty_iff.mp hm
      subst hm'
      simp
    · have hm' : m.isEmpty = false := by
        cases hb : m.isEmpty with
        | true => exact absurd hb hm
        | false => rfl
      simp [hm']

/-- Witness for the amended C9 at a one-secret environment with a
succeeding store. -/
theorem C9_secret_extraction_amended_witness :
    (alookup [("tag", Json.str "d"), ("secret", Json.obj [("k", .str "v")])] "secret" =
      some (.obj [("k", .str "v")])) ∧
    alookup (processEnv "t" "C" (fun _ => "0000000000000000") (fun _ => true) false 0
        [("tag", Json.str "d"), ("secret", Json.obj [("k", .str "v")])]).stored_config
      "secret" = none ∧
    (processEnv "t" "C" (fun _ => "0000000000000000") (fun _ => true) false 0
        [("tag", Json.str "d"), ("secret", Json.obj [("k", .str "v")])]).writes =
      ⟨envConfigPath "C" (generate_config_id "t" "d" "0000000000000000"),
        .obj (processEnv "t" "C" (fun _ => "0000000000000000") (fun _ => true) false 0
          [("tag", Json.str "d"), ("secret", Json.obj [("k", .str "v")])]).stored_config,
        false⟩ ::
      [("k", Json.str "v")].map (fun kv =>
        ⟨secretPath "C" (generate_config_id "t" "d" "0000000000000000") kv.1, kv.2, true⟩) := by
  refine ⟨rfl, ?_⟩
  exact C9_secret_extraction_amended "t" "C" (fun _ => "0000000000000000") (fun _ => true) 0
    [("tag", Json.str "d"), ("secret", Json.obj [("k", .str "v")])] "d"
    [("k", Json.str "v")] rfl rfl rfl

end ClientConfig

namespace ClientConfig

/-- Logical JSON payload the live run transmits for the client config
(`json.dumps(client_config, separators=(',', ':'))` in
`create_client_config`). -/
def client_payload_live (client_config : List (String × Json)) : Json := .obj client_config

/-- Logical JSON payload the dry run writes to `client_config.json`
(`json.dump(client_config, f, indent=2)` in `create_client_config`). -/
def client_payload_dry (client_config : List (String × Json)) : Json := .obj client_config

/-- Logical JSON payload the live run transmits for one environment
config (`json.dumps(env_config, separators=(',', ':'))`). -/
def env_payload_live (env_config : List (String × Json)) : Json := .obj env_config

/-- Logical JSON payload the dry run writes to
`environment_{env_key}_config.json` (`json.dump(env_config, f,
indent=2)`). -/
def env_payload_dry (env_config : List (String × Json)) : Json := .obj env_config

/-- Payload sent to `put_item` for one download rule in a live run: the
DynamoDB-typed item. -/
def download_rule_payload_live (rule : Json) (rule_id env_id client_id pipeline_id : String) :
    Json :=
  .obj (convert_to_dynamodb_item rule rule_id env_id client_id pipeline_id)

/-- Payload recorded in `rules_{pipeline_id}.json` for one download rule
in a dry run: the flattened readable item. -/
def download_rule_payload_dry (rule : Json) (rule_id env_id client_id pipeline_id : String) :
    Json :=
  .obj (readable_item (convert_to_dynamodb_item rule rule_id env_id client_id pipeline_id))

/-- C4 counterexample: for a concrete download rule the live payload is
the DynamoDB-typed item while the dry-run file holds the flattened item —
two different logical JSON values (the difference is structural, not
whitespace). -/
theorem C4_counterexample :
    pyGet (download_rule_payload_live
        (.obj [("description", .str "a"), ("type", .str "x"), ("values", .str "1")])
        "g#rule_1" "E" "C" "P") "rule_id" = some (.obj [("S", .str "g#rule_1")]) ∧
    pyGet (download_rule_payload_dry
        (.obj [("description", .str "a"), ("type", .str "x"), ("values", .str "1")])
        "g#rule_1" "E" "C" "P") "rule_id" = some (.str "g#rule_1") ∧
    download_rule_payload_live
        (.obj [("description", .str "a"), ("type", .str "x"), ("values", .str "1")])
        "g#rule_1" "E" "C" "P" ≠
      download_rule_payload_dry
        (.obj [("description", .str "a"), ("type", .str "x"), ("values", .str "1")])
        "g#rule_1" "E" "C" "P" := by
  refine ⟨rfl, rfl, ?_⟩
  intro h
  have h2 := congrArg (fun j => pyGet j "rule_id") h
  simp only at h2
  rw [show pyGet (download_rule_payload_live
        (.obj [("description", .str "a"), ("type", .str "x"), ("values", .str "1")])
        "g#rule_1" "E" "C" "P") "rule_id" = some (.obj [("S", .str "g#rule_1")]) from rfl,
      show pyGet (download_rule_payload_dry
        (.obj [("description", .str "a"), ("type", .str "x"), ("values", .str "1")])
        "g#rule_1" "E" "C" "P") "rule_id" = some (.str "g#rule_1") from rfl] at h2
  exact Json.noConfusion (Option.some.inj h2)

/-- C4 (amended): the client and environment configuration payloads are
the same logical JSON in both modes; a download-rule record, however, is
transmitted in DynamoDB-typed form live while the dry-run file holds the
flattened form obtained by unwrapping each field's one-key `S` wrapper —
equal field values, different JSON structure — so the write destination
is not the only difference between the modes. -/
theorem C4_payload_equivalence_amended :
    (∀ client_config : List (String × Json),
      client_payload_live client_config = client_payload_dry client_config) ∧
    (∀ env_config : List (String × Json),
      env_payload_live env_config = env_payload_dry env_config) ∧
    (∀ (rule : Json) (rule_id env_id client_id pipeline_id : String),
      readable_item (convert_to_dynamodb_item rule rule_id env_id client_id pipeline_id) =
        (convert_to_dynamodb_item rule rule_id env_id client_id pipeline_id).map
          (fun kv =>
            (kv.1, getS (convert_to_dynamodb_item rule rule_id env_id client_id pipeline_id)
              kv.1))) := by
  exact ⟨fun _ => rfl, fun _ => rfl, fun _ _ _ _ _ => rfl⟩

end ClientConfig

namespace ClientConfig

/-- C2 counterexample: a live run whose single download-rule row insert
fails (row oracle always false).  The invocation's result keeps
`success = true` (the failure appears only in `failed_inserts`), no other
aggregate flag turns false, and the orchestrator exits with status 0 —
not the claimed non-zero status. -/
theorem C2_counterexample :
    (runMaster [("tag", .str "t")]
        [("dev", .obj [("tag", .str "d"), ("pipelines", .obj [("p1", .obj [])])])]
        [.obj [("description", .str "a"), ("type", .str "x"), ("values", .str "1"),
          ("pipeline", .str "p1")]]
        []
        (fun _ => "0000000000000000") (fun _ => true) (fun _ _ => false) (fun _ => true)
        ["g"] false false false true true).exitCode = 0 ∧
    (runMaster [("tag", .str "t")]
        [("dev", .obj [("tag", .str "d"), ("pipelines", .obj [("p1", .obj [])])])]
        [.obj [("description", .str "a"), ("type", .str "x"), ("values", .str "1"),
          ("pipeline", .str "p1")]]
        []
        (fun _ => "0000000000000000") (fun _ => true) (fun _ _ => false) (fun _ => true)
        ["g"] false false false true true).clientResult.success = true ∧
    (runMaster [("tag", .str "t")]
        [("dev", .obj [("tag", .str "d"), ("pipelines", .obj [("p1", .obj [])])])]
        [.obj [("description", .str "a"), ("type", .str "x"), ("values", .str "1"),
          ("pipeline", .str "p1")]]
        []
        (fun _ => "0000000000000000") (fun _ => true) (fun _ _ => false) (fun _ => true)
        ["g"] false false false true true).downloadResults.map (fun r => r.success) =
      [true] ∧
    (runMaster [("tag", .str "t")]
        [("dev", .obj [("tag", .str "d"), ("pipelines", .obj [("p1", .obj [])])])]
        [.obj [("description", .str "a"), ("type", .str "x"), ("values", .str "1"),
          ("pipeline", .str "p1")]]
        []
        (fun _ => "0000000000000000") (fun _ => true) (fun _ _ => false) (fun _ => true)
        ["g"] false false false true true).downloadResults.map (fun r => r.failed_inserts) =
      [1] ∧
    (runMaster [("tag", .str "t")]
        [("dev", .obj [("tag", .str "d"), ("pipelines", .obj [("p1", .obj [])])])]
        [.obj [("description", .str "a"), ("type", .str "x"), ("values", .str "1"),
          ("pipeline", .str "p1")]]
        []
        (fun _ => "0000000000000000") (fun _ => true) (fun _ _ => false) (fun _ => true)
        ["g"] false false false true true).downloadResults.map
      (fun r => r.successful_inserts) = [0] := by
  exact ⟨rfl, rfl, rfl, rfl, rfl⟩

/-- C2 (amended): the orchestrator's exit status depends only on the
client-configuration step and the presence of the two rule files — never
on per-unit write failures; of the aggregate flags, only the enrichment
invocation's `success` reflects row-write failures (it is true exactly
when `failed_inserts` is zero), while a download invocation whose rows
all validate reports `success = true` whatever the row oracle did,
counting failures only in `failed_inserts`. -/
theorem C2_exit_status_amended :
    (∀ (client_config environments_config : List (String × Json))
        (download_rules enrichment_rules : List Json) (gen : Nat → String)
        (okParam : String → Bool) (okRow : Nat → Nat → Bool) (okEnrich : Nat → Bool)
        (guids : List String) (dry_run skipRules skipEnrich rfe efe : Bool),
      (runMaster client_config environments_config download_rules enrichment_rules gen
          okParam okRow okEnrich guids dry_run skipRules skipEnrich rfe efe).exitCode =
        if (create_client_config client_config environments_config gen okParam
            dry_run).1.success = false then 1
        else if skipRules = false ∧ rfe = false then 1
        else if skipEnrich = false ∧ efe = false then 1
        else 0) ∧
    (∀ (rules_data : List Json) (environment_id_map : List (String × String))
        (client_id : Option String) (ok : Nat → Bool)
        (items : List (List (String × Json) × List (String × Json))),
      buildAll environment_id_map client_id rules_data = .ok items →
      (insert_enrichment_rules rules_data environment_id_map client_id false ok).1.success =
        ((insert_enrichment_rules rules_data environment_id_map client_id false
          ok).1.failed_inserts == 0)) ∧
    (∀ (rules_data : List Json) (k : String) (env_id client_id pipeline_id : String)
        (guids : List String) (ok : Nat → Bool),
      k ≠ "" →
      (∀ r ∈ rules_data.filter (pipelineMatches k),
        isObj r = true ∧ validate_rule_data r = true) →
      (rules_data.filter (pipelineMatches k)).isEmpty = false →
      (insert_download_rules rules_data (some k) env_id client_id pipeline_id guids false
        ok).1.success = true) := by
  refine ⟨?_, ?_, ?_⟩
  · intro client_config environments_config download_rules enrichment_rules gen okParam okRow
      okEnrich guids dry_run skipRules skipEnrich rfe efe
    unfold runMaster
    by_cases h1 : (create_client_config client_config environments_config gen okParam
        dry_run).1.success = false
    · simp [h1]
    · by_cases h2 : skipRules = false ∧ rfe = false
      · simp [h1, h2]
      · by_cases h3 : skipEnrich = false ∧ efe = false
        · simp [h1, h2, h3]
        · simp [h1, h2, h3]
  · intro rules_data environment_id_map client_id ok items h
    simp only [insert_enrichment_rules, h, Bool.false_eq_true, if_false]
  · intro rules_data k env_id client_id pipeline_id guids ok hk hval hne
    have hflt : filteredRules (some k) rules_data = rules_data.filter (pipelineMatches k) := by
      simp [filteredRules, hk]
    have hempty : rules_data.isEmpty = false := by
      cases rules_data with
      | nil => simp at hne
      | cons a as => rfl
    have hvall : validateAll 0 (rules_data.filter (pipelineMatches k)) = none :=
      validateAll_none_of_all _ 0 hval
    simp only [insert_download_rules, hempty, Bool.false_eq_true, if_false, hflt, hne,
      and_false, if_false, hvall]

/-- Witness for the amended C2: exit status 0 for a run with a failing
row insert, enrichment success tracking `failed_inserts`, and a download
success flag that stays true under an all-failing row oracle. -/
theorem C2_exit_status_amended_witness :
    ((runMaster [("tag", .str "t")]
        [("dev", .obj [("tag", .str "d"), ("pipelines", .obj [("p1", .obj [])])])]
        [.obj [("description", .str "a"), ("type", .str "x"), ("values", .str "1"),
          ("pipeline", .str "p1")]]
        []
        (fun _ => "0000000000000000") (fun _ => true) (fun _ _ => false) (fun _ => true)
        ["g"] false false false true true).exitCode =
      if (create_client_config [("tag", .str "t")]
          [("dev", .obj [("tag", .str "d"), ("pipelines", .obj [("p1", .obj [])])])]
          (fun _ => "0000000000000000") (fun _ => true) false).1.success = false then 1
      else if (false : Bool) = false ∧ (true : Bool) = false then 1
      else if (false : Bool) = false ∧ (true : Bool) = false then 1
      else 0) ∧
    (buildAll [] none [.obj [("environment_id", .str "e"), ("version", .str "3"),
        ("rules_json", .str "r")]] =
      .ok [([("environment_id", .obj [("S", .str "e")]),
             ("version", .obj [("N", .str "3")]),
             ("rules_json", .obj [("S", .str "r")])],
            [("environment_id", .str "e"), ("version", .num 3),
             ("rules_json", .str "r")])]) ∧
    ((insert_enrichment_rules [.obj [("environment_id", .str "e"), ("version", .str "3"),
        ("rules_json", .str "r")]] [] none false (fun _ => false)).1.success =
      ((insert_enrichment_rules [.obj [("environment_id", .str "e"), ("version", .str "3"),
        ("rules_json", .str "r")]] [] none false (fun _ => false)).1.failed_inserts == 0)) ∧
    ((insert_download_rules [.obj [("description", .str "a"), ("type", .str "x"),
        ("values", .str "1"), ("pipeline", .str "p1")]] (some "p1") "E" "C" "P" ["g"] false
        (fun _ => false)).1.success = true) := by
  refine ⟨?_, rfl, ?_, ?_⟩
  · exact C2_exit_status_amended.1 [("tag", .str "t")]
      [("dev", .obj [("tag", .str "d"), ("pipelines", .obj [("p1", .obj [])])])]
      [.obj [("description", .str "a"), ("type", .str "x"), ("values", .str "1"),
        ("pipeline", .str "p1")]]
      [] (fun _ => "0000000000000000") (fun _ => true) (fun _ _ => false) (fun _ => true)
      ["g"] false false false true true
  · exact C2_exit_status_amended.2.1
      [.obj [("environment_id", .str "e"), ("version", .str "3"), ("rules_json", .str "r")]]
      [] none (fun _ => false) _ rfl
  · exact C2_exit_status_amended.2.2
      [.obj [("description", .str "a"), ("type", .str "x"), ("values", .str "1"),
        ("pipeline", .str "p1")]]
      "p1" "E" "C" "P" ["g"] (fun _ => false) (by decide) (by decide) rfl

end ClientConfig
